import Mathlib

/-!
Shallow embedding of the ThaiLingo translation endpoint (a Vercel serverless
handler) and its helper functions, across the repository's revisions:

- `handlerGAS` embeds the revision of `api/analyze.js` that tries a Google
  Apps Script (GAS) fast path with a `sourceLang` hint before falling back
  to the Gemini generative provider.
- `handlerNLLB` embeds the revision (src/unnamed/part_000) whose fast path is
  the Hugging Face NLLB-200 inference API without a retry loop.
- `handlerNLLB2` embeds the revision (src/unnamed/part_002) whose NLLB fast
  path retries on 503 "model loading" responses.
- `handlerRetry` embeds the revision (src/unnamed/part_001) whose Gemini call
  retries once against a fallback model identifier on 429/503 errors.

JavaScript strings are modelled as `List Char`.  External effects (fetch,
the Gemini SDK, `JSON.parse`, `Date.now()`) are modelled as oracle inputs
carried by a `World` structure, and each handler returns, besides the HTTP
response, the ordered list of outbound provider calls it performed.
Prompt template literals are abstracted to a `Part` constructor recording
which user payload was interpolated into the template; no claim depends on
the literal prompt text.
-/

/-- JavaScript strings, modelled as lists of characters. -/
abbrev JStr := List Char

/-- JavaScript truthiness of a possibly-absent string value:
`undefined`/`null` and the empty string are falsy. -/
def truthy : Option JStr → Bool
  | none => false
  | some s => !s.isEmpty

/-- JavaScript `a || b` for a possibly-absent string `a` with default `b`
(e.g. `process.env.GEMINI_MODEL || "gemini-2.0-flash-lite"`). -/
def jsOr (v : Option JStr) (dflt : JStr) : JStr :=
  match v with
  | none => dflt
  | some s => if s.isEmpty then dflt else s

/-- When `pat` is a prefix of `s`, return the remainder of `s` after `pat`. -/
def matchHead : JStr → JStr → Option JStr
  | [], s => some s
  | _ :: _, [] => none
  | p :: ps, c :: cs => if p == c then matchHead ps cs else none

/-- JavaScript `s.includes(pat)`: `pat` occurs as a contiguous substring. -/
def includesStr : JStr → JStr → Bool
  | s, pat =>
    match s with
    | [] => pat.isEmpty
    | _ :: rest => (matchHead pat s).isSome || includesStr rest pat

/-- Fuel-indexed worker for `replaceAll`; the fuel is the length of the
scanned string, which bounds the number of scanning steps. -/
def replaceAllFuel : Nat → JStr → JStr → JStr → JStr
  | 0, s, _, _ => s
  | fuel + 1, s, pat, rep =>
    match s with
    | [] => []
    | c :: rest =>
      if pat.isEmpty then c :: replaceAllFuel fuel rest pat rep
      else
        match matchHead pat s with
        | some rem => rep ++ replaceAllFuel fuel rem pat rep
        | none => c :: replaceAllFuel fuel rest pat rep

/-- JavaScript `s.replace(/pat/g, rep)` for a literal pattern: replaces every
non-overlapping occurrence, scanning left to right. -/
def replaceAll (s pat rep : JStr) : JStr :=
  replaceAllFuel s.length s pat rep

/-- JavaScript `s.indexOf(c)` for a single character: index of the first
occurrence, if any. -/
def indexOfChar : JStr → Char → Option Nat
  | [], _ => none
  | x :: rest, c =>
    if x == c then some 0 else (indexOfChar rest c).map (· + 1)

/-- JavaScript `s.lastIndexOf(c)` for a single character: index of the last
occurrence, if any. -/
def lastIndexOfChar : JStr → Char → Option Nat
  | [], _ => none
  | x :: rest, c =>
    match lastIndexOfChar rest c with
    | some i => some (i + 1)
    | none => if x == c then some 0 else none

/-- JavaScript `s.substring(a, b)`: clamps both indices to the string length
and swaps them when `a > b`. -/
def jsSubstring (s : JStr) (a b : Nat) : JStr :=
  let n := s.length
  let a' := min a n
  let b' := min b n
  (s.drop (min a' b')).take (max a' b' - min a' b')

/-- JavaScript whitespace for `String.prototype.trim`. -/
def jsIsSpace (c : Char) : Bool :=
  c == ' ' || c == '\t' || c == '\n' || c == '\r'

/-- JavaScript `s.trim()`. -/
def trimStr (s : JStr) : JStr :=
  ((s.dropWhile jsIsSpace).reverse.dropWhile jsIsSpace).reverse

/-- Placeholder JSON value type for the result of `JSON.parse`; the handlers
pass a successfully parsed value through to the response unchanged and never
inspect it. -/
inductive Json where
  | null : Json
  | bool (b : Bool) : Json
  | num (n : Int) : Json
  | str (s : JStr) : Json
  | arr (elems : List Json) : Json
  | obj (fields : List (JStr × Json)) : Json

/-- Fields of the translation item constructed on the fast path
(`id: Date.now(), thai, zh, roman, category, containsShellfish`). -/
structure Item where
  id : Nat
  thai : JStr
  zh : JStr
  roman : JStr
  category : JStr
  containsShellfish : Bool

/-- Response bodies produced by the handlers: `res.status(...).end()` with no
body, an error object `\x7berror, details?, raw?\x7d`, the fast-path object
`\x7bitems: [...]\x7d`, or the parsed generative payload passed through. -/
inductive Body where
  | empty : Body
  | errorBody (error : JStr) (details : Option JStr) (raw : Option JStr) : Body
  | items (items : List Item) : Body
  | parsedJson (j : Json) : Body

/-- HTTP response: status code plus JSON body. -/
structure HttpResponse where
  status : Nat
  body : Body

/-- Request body fields destructured by the handlers. -/
structure ReqBody where
  image : Option JStr
  text : Option JStr
  mode : Option JStr
  sourceLang : Option JStr

/-- Inbound HTTP request: method plus JSON body. -/
structure Request where
  method : JStr
  body : ReqBody

/-- Process environment variables read by the handlers. -/
structure Env where
  GEMINI_API_KEY : Option JStr
  GAS_API_URL : Option JStr
  GEMINI_MODEL : Option JStr
  HF_API_KEY : Option JStr

/-- One part of the content sent to the generative provider.  The prompt
template literals are abstracted: `textPart` records which user text (if any)
was interpolated into the chosen template, `imagePart` carries the inline
image data. -/
inductive ContentPart where
  | textPart (interpolated : Option JStr) : ContentPart
  | imagePart (data : JStr) : ContentPart

/-- An outbound provider call performed by a handler, in order: a GAS relay
call (with the text and language codes sent), a Gemini `generateContent` call
(with the model name and content parts), or one Hugging Face NLLB fetch. -/
inductive Call where
  | gas (text sourceLang targetLang : JStr) : Call
  | gemini (modelName : JStr) (parts : List ContentPart) : Call
  | hf (text : JStr) : Call

/-- Whether a recorded outbound call carries the image payload. -/
def callHasImage : Call → Bool
  | .gemini _ parts =>
    parts.any fun p => match p with | .imagePart _ => true | _ => false
  | _ => false

/-- The fixed shellfish allergen keyword list of the fast-path revisions. -/
def shellfishKeywords : List JStr :=
  ["\u0e01\u0e38\u0e49\u0e07".toList, "\u0e1b\u0e39".toList, "\u0e2b\u0e2d\u0e22".toList,
   "\u0e01\u0e31\u0e49\u0e07".toList,
   "\u0e25\u0e47\u0e2d\u0e1a\u0e2a\u0e40\u0e15\u0e2d\u0e23\u0e4c".toList]

/-- The outcome of the single `fetch` performed by `translateWithGAS`,
as observed by the surrounding code: a rejected fetch promise, a non-2xx
response, a body that is not JSON, or the parsed `\x7bstatus, translated,
message\x7d` payload (absent string fields modelled as the empty string). -/
inductive GasFetchOutcome where
  | networkError (msg : JStr) : GasFetchOutcome
  | httpError (status : Nat) : GasFetchOutcome
  | badJson (msg : JStr) : GasFetchOutcome
  | payload (status : JStr) (translated : JStr) (message : JStr) : GasFetchOutcome

/-- Embedding of the helper `translateWithGAS` from the GAS revisions: throws
(`Except.error`) on a rejected fetch, on `!response.ok` with message
`GAS API Error: $\x7bstatus\x7d`, and on a non-success payload with
`data.message || "Unknown GAS Error"`; returns `data.translated` on success.
The text and language-code arguments only feed the fetch itself, which is
modelled by the `GasFetchOutcome` oracle. -/
def translateWithGAS (outcome : GasFetchOutcome) : Except JStr JStr :=
  match outcome with
  | .networkError m => .error m
  | .httpError st => .error ("GAS API Error: ".toList ++ (Nat.repr st).toList)
  | .badJson m => .error m
  | .payload st tr msg =>
    if st = "success".toList then .ok tr
    else .error (if msg.isEmpty then "Unknown GAS Error".toList else msg)

/-- The fence-stripping step of the response cleanup:
strip ` ```json ` and ` ``` ` markers when a fence is present. -/
def stripFences (s : JStr) : JStr :=
  if includesStr s "```".toList then
    replaceAll (replaceAll s "```json".toList []) "```".toList []
  else s

/-- Embedding of the response-text cleanup shared by the revisions: strip
code fences, then, when both a `\x7b` and a `\x7d` occur, take
`substring(indexOf, lastIndexOf + 1)` with JavaScript substring semantics. -/
def cleanResponseText (s : JStr) : JStr :=
  let s1 := stripFences s
  match indexOfChar s1 '\x7b', lastIndexOfChar s1 '\x7d' with
  | some a, some b => jsSubstring s1 a (b + 1)
  | _, _ => s1

/-- Modelled from the README revision's parse-failure response, which sends
`raw: text.substring(0, 200) + "..."`: the truncated excerpt of a text. -/
def truncatedExcerpt (s : JStr) : JStr :=
  jsSubstring s 0 200 ++ "...".toList

/-- The oracle world for `handlerGAS`: environment, the `Date.now()` clock,
the outcome of the (at most one) GAS fetch, the outcome of the (at most one)
Gemini call (`Except.error` models a thrown SDK error, carrying
`error.message`), and the `JSON.parse` function (`none` models a throw). -/
structure WorldGAS where
  env : Env
  now : Nat
  gasFetch : GasFetchOutcome
  gemini : Except JStr JStr
  jsonParse : JStr → Option Json

/-- Embedding of "branch B" (the Gemini generative path) shared by the
single-call revisions: missing `GEMINI_API_KEY` is a configuration error;
otherwise one `generateContent` call is made with the text prompt (when the
text payload is truthy) or the image prompt plus inline image; a thrown SDK
error is caught by the outer handler as `Processing Failed`; otherwise the
response text is cleaned and parsed, with parse failure answered by a 500
`AI Response Error` carrying the cleaned text in `raw`. -/
def geminiBranch (env : Env) (gemini : Except JStr JStr)
    (jsonParse : JStr → Option Json) (body : ReqBody) :
    HttpResponse × List Call :=
  if !truthy env.GEMINI_API_KEY then
    (⟨500, .errorBody "Configuration Error".toList
        (some "API Key missing.".toList) none⟩, [])
  else
    let modelName := jsOr env.GEMINI_MODEL "gemini-2.0-flash-lite".toList
    let parts : List ContentPart :=
      if truthy body.text then [ContentPart.textPart (some (body.text.getD []))]
      else [ContentPart.textPart none, ContentPart.imagePart (body.image.getD [])]
    let call := Call.gemini modelName parts
    match gemini with
    | .error e =>
      (⟨500, .errorBody "Processing Failed".toList (some e) none⟩, [call])
    | .ok raw =>
      let cleaned := cleanResponseText raw
      match jsonParse cleaned with
      | none =>
        (⟨500, .errorBody "AI Response Error".toList
            (some "Failed to parse JSON".toList) (some cleaned)⟩, [call])
      | some j => (⟨200, .parsedJson j⟩, [call])

/-- Embedding of the `api/analyze.js` revision whose fast path is the GAS
relay with a `sourceLang` hint: CORS preflight, method check, content check,
then the GAS fast path (building one item locally, with local shellfish
keyword detection only in the Thai-to-Chinese direction), falling through to
the Gemini branch on any GAS failure. -/
def handlerGAS (w : WorldGAS) (req : Request) : HttpResponse × List Call :=
  if req.method = "OPTIONS".toList then (⟨200, .empty⟩, [])
  else if req.method = "POST".toList then
    let body := req.body
    if !truthy body.image && !truthy body.text then
      (⟨400, .errorBody "No content provided".toList none none⟩, [])
    else if truthy body.text && truthy w.env.GAS_API_URL then
      let textVal := body.text.getD []
      let srcLangCode :=
        if body.sourceLang = some "zh".toList then "zh-TW".toList
        else "th".toList
      let tgtLangCode :=
        if body.sourceLang = some "zh".toList then "th".toList
        else "zh-TW".toList
      let gasCall := Call.gas textVal srcLangCode tgtLangCode
      match translateWithGAS w.gasFetch with
      | .ok translation =>
        let item : Item :=
          if body.sourceLang = some "zh".toList then
            { id := w.now, thai := translation, zh := textVal, roman := [],
              category := "來源: Google Translate (GAS)".toList,
              containsShellfish := false }
          else
            { id := w.now, thai := textVal, zh := translation, roman := [],
              category := "來源: Google Translate (GAS)".toList,
              containsShellfish :=
                shellfishKeywords.any fun k => includesStr textVal k }
        (⟨200, .items [item]⟩, [gasCall])
      | .error _ =>
        let rc := geminiBranch w.env w.gemini w.jsonParse body
        (rc.1, gasCall :: rc.2)
    else geminiBranch w.env w.gemini w.jsonParse req.body
  else (⟨405, .errorBody "Method Not Allowed".toList none none⟩, [])

/-- The outcome of the single `fetch` performed by the part_000 revision's
`translateWithNLLB` helper, as observed by the surrounding code. -/
inductive Hf1Outcome where
  | networkError (msg : JStr) : Hf1Outcome
  | httpError (status : Nat) (statusText : JStr) : Hf1Outcome
  | okTranslation (t : JStr) : Hf1Outcome
  | okError (e : JStr) : Hf1Outcome
  | okUnexpected : Hf1Outcome

/-- Embedding of the part_000 revision's `translateWithNLLB` (no retry loop):
one fetch; non-2xx throws `HF API Error: $\x7bstatus\x7d $\x7bstatusText\x7d`;
an array payload with `translation_text` is returned; a payload with an
`error` field throws it; anything else throws the unexpected-format error. -/
def translateWithNLLBv1 (outcome : Hf1Outcome) : Except JStr JStr :=
  match outcome with
  | .networkError m => .error m
  | .httpError st stext =>
    .error ("HF API Error: ".toList ++ (Nat.repr st).toList
      ++ " ".toList ++ stext)
  | .okTranslation t => .ok t
  | .okError e => .error e
  | .okUnexpected => .error "Unexpected HF response format".toList

/-- The outcome of one `fetch` inside the part_002 revision's retry loop:
a rejected fetch, a 503 "model loading" response carrying an optional
`estimated_time` (in whole seconds; `none` models an absent field), another
non-2xx response with its body text, or a 2xx response whose payload either
does or does not carry `translation_text`. -/
inductive HfOutcome where
  | networkError (msg : JStr) : HfOutcome
  | loading (estimatedTime : Option Nat) : HfOutcome
  | httpError (status : Nat) (errText : JStr) : HfOutcome
  | okPayload (translationText : Option JStr) : HfOutcome

/-- The observable outcome of a run of the part_002 `translateWithNLLB`:
the returned translation or thrown error, the number of fetches performed,
and the waits (in milliseconds) slept between attempts, in order. -/
structure NllbRun where
  result : Except JStr JStr
  attempts : Nat
  waits : List Nat

/-- Worker for the part_002 `translateWithNLLB` retry loop: `i` is the loop
counter, the fuel is the number of loop iterations still allowed (the source
loop runs `i` from 0 while `i < 3`). -/
def nllbLoop (hf : Nat → HfOutcome) : Nat → Nat → NllbRun
  | _, 0 => ⟨.error "NLLB Model unavailable after retries".toList, 0, []⟩
  | i, fuel + 1 =>
    match hf i with
    | .networkError m => ⟨.error m, 1, []⟩
    | .loading et =>
      let waitTime := match et with
        | some n => if n = 0 then 5 else n
        | none => 5
      let rest := nllbLoop hf (i + 1) fuel
      ⟨rest.result, rest.attempts + 1, waitTime * 1000 :: rest.waits⟩
    | .httpError st errText =>
      ⟨.error ("HF API Error ".toList ++ (Nat.repr st).toList
        ++ ": ".toList ++ errText), 1, []⟩
    | .okPayload (some t) => ⟨.ok t, 1, []⟩
    | .okPayload none => ⟨.error "Unexpected HF response format".toList, 1, []⟩

/-- Embedding of the part_002 revision's `translateWithNLLB`: up to 3 fetch
attempts; a 503 "model loading" response makes it wait
`(errorData.estimated_time || 5) * 1000` milliseconds and retry; exhausting
the three attempts throws `NLLB Model unavailable after retries`. -/
def translateWithNLLB (hf : Nat → HfOutcome) : NllbRun :=
  nllbLoop hf 0 3

/-- The oracle world for `handlerNLLB` (part_000). -/
structure WorldNLLB where
  env : Env
  now : Nat
  hf : Hf1Outcome
  gemini : Except JStr JStr
  jsonParse : JStr → Option Json

/-- Embedding of the part_000 revision: NLLB-200 fast path (no retry); on
success it builds one item with `containsShellfish: false` ("NLLB cannot
tell, default false" per the source comment); on failure it falls through to
the Gemini branch. -/
def handlerNLLB (w : WorldNLLB) (req : Request) : HttpResponse × List Call :=
  if req.method = "OPTIONS".toList then (⟨200, .empty⟩, [])
  else if req.method = "POST".toList then
    let body := req.body
    if !truthy body.image && !truthy body.text then
      (⟨400, .errorBody "No content provided".toList none none⟩, [])
    else if truthy body.text && truthy w.env.HF_API_KEY then
      let textVal := body.text.getD []
      match translateWithNLLBv1 w.hf with
      | .ok translation =>
        let item : Item :=
          { id := w.now, thai := textVal, zh := translation, roman := [],
            category := "來源: Meta NLLB-200".toList,
            containsShellfish := false }
        (⟨200, .items [item]⟩, [Call.hf textVal])
      | .error _ =>
        let rc := geminiBranch w.env w.gemini w.jsonParse body
        (rc.1, Call.hf textVal :: rc.2)
    else geminiBranch w.env w.gemini w.jsonParse req.body
  else (⟨405, .errorBody "Method Not Allowed".toList none none⟩, [])

/-- The oracle world for `handlerNLLB2` (part_002). -/
structure WorldNLLB2 where
  env : Env
  now : Nat
  hf : Nat → HfOutcome
  gemini : Except JStr JStr
  jsonParse : JStr → Option Json

/-- Embedding of the part_002 revision: like part_000 but the raw
`HF_API_KEY` is trimmed before the truthiness test, and the NLLB helper
retries on 503 "model loading" responses (up to 3 fetches). -/
def handlerNLLB2 (w : WorldNLLB2) (req : Request) : HttpResponse × List Call :=
  if req.method = "OPTIONS".toList then (⟨200, .empty⟩, [])
  else if req.method = "POST".toList then
    let body := req.body
    if !truthy body.image && !truthy body.text then
      (⟨400, .errorBody "No content provided".toList none none⟩, [])
    else
      let hfApiKey : Option JStr :=
        if truthy w.env.HF_API_KEY then some (trimStr (w.env.HF_API_KEY.getD []))
        else none
      if truthy body.text && truthy hfApiKey then
        let textVal := body.text.getD []
        let run := translateWithNLLB w.hf
        let hfCalls := List.replicate run.attempts (Call.hf textVal)
        match run.result with
        | .ok translation =>
          let item : Item :=
            { id := w.now, thai := textVal, zh := translation, roman := [],
              category := "來源: Meta NLLB-200".toList,
              containsShellfish := false }
          (⟨200, .items [item]⟩, hfCalls)
        | .error _ =>
          let rc := geminiBranch w.env w.gemini w.jsonParse body
          (rc.1, hfCalls ++ rc.2)
      else geminiBranch w.env w.gemini w.jsonParse req.body
  else (⟨405, .errorBody "Method Not Allowed".toList none none⟩, [])

/-- Embedding of the part_001 revision's `generateWithRetry`: call the given
model; on a thrown error whose message contains `429` or `503`, and when not
already retrying, recurse once with the fallback model; any other error (or
an error while already retrying) is rethrown.  Besides the result, the list
of model identifiers actually invoked is returned, in call order. -/
def generateWithRetry (gemini : JStr → Except JStr JStr) (fallbackModel : JStr) :
    JStr → Bool → Except JStr JStr × List JStr
  | currentModelName, retrying =>
    match gemini currentModelName with
    | .ok t => (.ok t, [currentModelName])
    | .error errMsg =>
      match retrying, includesStr errMsg "429".toList
          || includesStr errMsg "503".toList with
      | false, true =>
        let rest := generateWithRetry gemini fallbackModel fallbackModel true
        (rest.1, currentModelName :: rest.2)
      | _, _ => (.error errMsg, [currentModelName])
termination_by _ r => (if r then 0 else 1)
decreasing_by simp

/-- The oracle world for `handlerRetry` (part_001): the Gemini oracle is a
function of the model identifier, since the fallback retry targets a second
model. -/
structure WorldRetry where
  env : Env
  now : Nat
  gasFetch : GasFetchOutcome
  gemini : JStr → Except JStr JStr
  jsonParse : JStr → Option Json

/-- The part_001 revision's designated fallback model identifier. -/
def FALLBACK_MODEL : JStr := "gemini-2.5-flash-lite-preview-09-2025".toList

/-- The Gemini branch of the part_001 revision: one `generateWithRetry` run
starting from the primary model, then the same cleanup/parse pipeline. -/
def retryBranch (w : WorldRetry) (body : ReqBody) : HttpResponse × List Call :=
  let primaryModel := jsOr w.env.GEMINI_MODEL "gemini-2.0-flash-lite".toList
  let parts : List ContentPart :=
    if truthy body.text then [ContentPart.textPart (some (body.text.getD []))]
    else [ContentPart.textPart none, ContentPart.imagePart (body.image.getD [])]
  let run := generateWithRetry w.gemini FALLBACK_MODEL primaryModel false
  let calls := run.2.map fun m => Call.gemini m parts
  match run.1 with
  | .error e =>
    (⟨500, .errorBody "Processing Failed".toList (some e) none⟩, calls)
  | .ok raw =>
    let cleaned := cleanResponseText raw
    match w.jsonParse cleaned with
    | none =>
      (⟨500, .errorBody "AI Response Error".toList
          (some "Failed to parse JSON".toList) (some cleaned)⟩, calls)
    | some j => (⟨200, .parsedJson j⟩, calls)

/-- Embedding of the part_001 revision: it checks `GEMINI_API_KEY` before the
content check, then runs the GAS fast path (same as `handlerGAS`), then the
Gemini branch with the automatic primary-to-fallback model retry. -/
def handlerRetry (w : WorldRetry) (req : Request) : HttpResponse × List Call :=
  if req.method = "OPTIONS".toList then (⟨200, .empty⟩, [])
  else if req.method = "POST".toList then
    if !truthy w.env.GEMINI_API_KEY then
      (⟨500, .errorBody "Configuration Error".toList
          (some "API Key missing.".toList) none⟩, [])
    else
      let body := req.body
      if !truthy body.image && !truthy body.text then
        (⟨400, .errorBody "No content provided".toList none none⟩, [])
      else if truthy body.text && truthy w.env.GAS_API_URL then
        let textVal := body.text.getD []
        let srcLangCode :=
          if body.sourceLang = some "zh".toList then "zh-TW".toList
          else "th".toList
        let tgtLangCode :=
          if body.sourceLang = some "zh".toList then "th".toList
          else "zh-TW".toList
        let gasCall := Call.gas textVal srcLangCode tgtLangCode
        match translateWithGAS w.gasFetch with
        | .ok translation =>
          let item : Item :=
            if body.sourceLang = some "zh".toList then
              { id := w.now, thai := translation, zh := textVal, roman := [],
                category := "來源: Google Translate (GAS)".toList,
                containsShellfish := false }
            else
              { id := w.now, thai := textVal, zh := translation, roman := [],
                category := "來源: Google Translate (GAS)".toList,
                containsShellfish :=
                  shellfishKeywords.any fun k => includesStr textVal k }
          (⟨200, .items [item]⟩, [gasCall])
        | .error _ =>
          let rc := retryBranch w body
          (rc.1, gasCall :: rc.2)
      else retryBranch w req.body
  else (⟨405, .errorBody "Method Not Allowed".toList none none⟩, [])

/-- Claim-side slicing of the sanitization step, written from the spec's
words alone for comparison with `cleanResponseText`: after fence removal,
when both a `\x7b` and a `\x7d` occur, keep exactly the span from the first
`\x7b` to the last `\x7d` inclusive, discarding everything outside it;
otherwise leave the text unsliced. -/
def sliceSpecFromClaim (s : JStr) : JStr :=
  let s1 := stripFences s
  match indexOfChar s1 '\x7b', lastIndexOfChar s1 '\x7d' with
  | some a, some b => (s1.drop a).take (b + 1 - a)
  | _, _ => s1

/-- The literal `"POST"` is not the literal `"OPTIONS"`. -/
theorem post_ne_options : ¬ ("POST".toList = "OPTIONS".toList) := by decide

/-- A first-occurrence index returned by `indexOfChar` is in range. -/
theorem indexOfChar_lt_length {c : Char} :
    ∀ {s : JStr} {i : Nat}, indexOfChar s c = some i → i < s.length := by
  intro s
  induction s with
  | nil => intro i h; simp [indexOfChar] at h
  | cons x rest ih =>
    intro i h
    simp only [indexOfChar] at h
    by_cases hx : (x == c) = true
    · rw [if_pos hx] at h
      cases h
      simp
    · rw [if_neg hx] at h
      cases hj : indexOfChar rest c with
      | none => rw [hj] at h; simp at h
      | some j =>
        rw [hj] at h
        simp only [Option.map_some'] at h
        cases h
        have := ih hj
        simp only [List.length_cons]
        omega

/-- A last-occurrence index returned by `lastIndexOfChar` is in range. -/
theorem lastIndexOfChar_lt_length {c : Char} :
    ∀ {s : JStr} {i : Nat}, lastIndexOfChar s c = some i → i < s.length := by
  intro s
  induction s with
  | nil => intro i h; simp [lastIndexOfChar] at h
  | cons x rest ih =>
    intro i h
    simp only [lastIndexOfChar] at h
    cases hj : lastIndexOfChar rest c with
    | none =>
      rw [hj] at h
      by_cases hx : (x == c) = true
      · rw [if_pos hx] at h; cases h; simp
      · rw [if_neg hx] at h; cases h
    | some j =>
      rw [hj] at h
      cases h
      have := ih hj
      simp only [List.length_cons]
      omega

/-- C6 (amended): a POST request with neither a truthy image nor a truthy
text is answered 400 `No content provided` with no outbound call by the
`handlerGAS` revision unconditionally; the part_001 revision checks the
credential first, so it answers 400 only when `GEMINI_API_KEY` is configured
and answers 500 `Configuration Error` (still with no outbound call) when it
is not. -/
theorem c6_no_content (wg : WorldGAS) (wr : WorldRetry) (req : Request)
    (hm : req.method = "POST".toList)
    (hi : truthy req.body.image = false)
    (ht : truthy req.body.text = false) :
    handlerGAS wg req =
      (⟨400, .errorBody "No content provided".toList none none⟩, [])
    ∧ (truthy wr.env.GEMINI_API_KEY = true →
        handlerRetry wr req =
          (⟨400, .errorBody "No content provided".toList none none⟩, []))
    ∧ (truthy wr.env.GEMINI_API_KEY = false →
        handlerRetry wr req =
          (⟨500, .errorBody "Configuration Error".toList
              (some "API Key missing.".toList) none⟩, [])) := by
  refine ⟨?_, fun hk => ?_, fun hk => ?_⟩
  · simp [handlerGAS, hm, post_ne_options, hi, ht]
  · simp [handlerRetry, hm, post_ne_options, hi, ht, hk]
  · simp [handlerRetry, hm, post_ne_options, hk]

/-- C6 witness: the amended statement at concrete inputs — an empty-body POST
against `handlerGAS`, against `handlerRetry` with a configured key, and
against `handlerRetry` without a key. -/
theorem c6_no_content_witness :
    handlerGAS
        ⟨⟨some "k".toList, none, none, none⟩, 0, .httpError 500, .ok [],
          fun _ => none⟩
        ⟨"POST".toList, ⟨none, none, none, none⟩⟩ =
      (⟨400, .errorBody "No content provided".toList none none⟩, [])
    ∧ handlerRetry
        ⟨⟨some "k".toList, none, none, none⟩, 0, .httpError 500,
          (fun _ => .ok []), fun _ => none⟩
        ⟨"POST".toList, ⟨none, none, none, none⟩⟩ =
      (⟨400, .errorBody "No content provided".toList none none⟩, [])
    ∧ handlerRetry
        ⟨⟨none, none, none, none⟩, 0, .httpError 500,
          (fun _ => .ok []), fun _ => none⟩
        ⟨"POST".toList, ⟨none, none, none, none⟩⟩ =
      (⟨500, .errorBody "Configuration Error".toList
          (some "API Key missing.".toList) none⟩, []) := by
  have h1 := c6_no_content
    ⟨⟨some "k".toList, none, none, none⟩, 0, .httpError 500, .ok [],
      fun _ => none⟩
    ⟨⟨some "k".toList, none, none, none⟩, 0, .httpError 500,
      (fun _ => .ok []), fun _ => none⟩
    ⟨"POST".toList, ⟨none, none, none, none⟩⟩ rfl (by decide) (by decide)
  have h2 := c6_no_content
    ⟨⟨some "k".toList, none, none, none⟩, 0, .httpError 500, .ok [],
      fun _ => none⟩
    ⟨⟨none, none, none, none⟩, 0, .httpError 500,
      (fun _ => .ok []), fun _ => none⟩
    ⟨"POST".toList, ⟨none, none, none, none⟩⟩ rfl (by decide) (by decide)
  exact ⟨h1.1, h1.2.1 (by decide), h2.2.2 (by decide)⟩

/-- C6 counterexample: a POST request with neither payload against the
part_001 revision with `GEMINI_API_KEY` unset is answered 500
`Configuration Error`, not 400 as the claim states (the credential check
precedes the content check in that revision). -/
theorem c6_no_content_counterexample :
    handlerRetry
        ⟨⟨none, none, none, none⟩, 0, .httpError 500,
          (fun _ => .ok []), fun _ => none⟩
        ⟨"POST".toList, ⟨none, none, none, none⟩⟩ =
      (⟨500, .errorBody "Configuration Error".toList
          (some "API Key missing.".toList) none⟩, [])
    ∧ (500 : Nat) ≠ 400 := by
  exact ⟨rfl, by decide⟩

/-- An absent value is falsy. -/
@[simp] theorem truthy_none : truthy none = false := rfl

/-- The Gemini branch never reads `GAS_API_URL`. -/
theorem geminiBranch_gasUrl_irrel (env : Env) (gemini : Except JStr JStr)
    (js : JStr → Option Json) (body : ReqBody) :
    geminiBranch { env with GAS_API_URL := none } gemini js body =
      geminiBranch env gemini js body := by
  simp [geminiBranch]

/-- C8: in the GAS revision, any failure of the fast-path attempt (a rejected
fetch, a non-2xx status, a malformed or unsuccessful payload — any
`translateWithGAS` error) is fully absorbed: the response is exactly the one
produced when no fast path is configured at all (hence independent of the
failure, so no fast-path error reaches the caller), and the call trace is the
generative path's trace prefixed by the one GAS attempt. -/
theorem c8_fast_path_absorbed (w : WorldGAS) (req : Request) (e : JStr)
    (hm : req.method = "POST".toList)
    (ht : truthy req.body.text = true)
    (hg : truthy w.env.GAS_API_URL = true)
    (hfail : translateWithGAS w.gasFetch = .error e) :
    (handlerGAS w req).1 =
      (handlerGAS { w with env := { w.env with GAS_API_URL := none } } req).1
    ∧ (handlerGAS w req).2 =
      Call.gas (req.body.text.getD [])
          (if req.body.sourceLang = some "zh".toList then "zh-TW".toList
           else "th".toList)
          (if req.body.sourceLang = some "zh".toList then "th".toList
           else "zh-TW".toList)
        :: (handlerGAS { w with env := { w.env with GAS_API_URL := none } } req).2 := by
  constructor <;>
    simp [handlerGAS, hm, post_ne_options, ht, hg, hfail,
      geminiBranch_gasUrl_irrel]

/-- C8 witness: a concrete POST text request whose GAS fetch answers HTTP
502; the response equals the one of the run with no GAS URL configured, and
the trace is that run's trace prefixed by the GAS attempt. -/
theorem c8_fast_path_absorbed_witness :
    (handlerGAS
        ⟨⟨some "k".toList, some "u".toList, none, none⟩, 0, .httpError 502,
          .ok "x".toList, fun _ => none⟩
        ⟨"POST".toList, ⟨none, some "hi".toList, none, none⟩⟩).1 =
      (handlerGAS
        ⟨⟨some "k".toList, none, none, none⟩, 0, .httpError 502,
          .ok "x".toList, fun _ => none⟩
        ⟨"POST".toList, ⟨none, some "hi".toList, none, none⟩⟩).1
    ∧ (handlerGAS
        ⟨⟨some "k".toList, some "u".toList, none, none⟩, 0, .httpError 502,
          .ok "x".toList, fun _ => none⟩
        ⟨"POST".toList, ⟨none, some "hi".toList, none, none⟩⟩).2 =
      Call.gas "hi".toList "th".toList "zh-TW".toList
        :: (handlerGAS
        ⟨⟨some "k".toList, none, none, none⟩, 0, .httpError 502,
          .ok "x".toList, fun _ => none⟩
        ⟨"POST".toList, ⟨none, some "hi".toList, none, none⟩⟩).2 := by
  have h := c8_fast_path_absorbed
    ⟨⟨some "k".toList, some "u".toList, none, none⟩, 0, .httpError 502,
      .ok "x".toList, fun _ => none⟩
    ⟨"POST".toList, ⟨none, some "hi".toList, none, none⟩⟩
    ("GAS API Error: 502".toList) rfl (by decide) (by decide) rfl
  exact ⟨h.1, h.2⟩

/-- When the text payload is truthy, every call recorded by the Gemini
branch carries only the text prompt, never an image part. -/
theorem geminiBranch_trace_no_image (env : Env) (g : Except JStr JStr)
    (js : JStr → Option Json) (body : ReqBody)
    (ht : truthy body.text = true) :
    ∀ c ∈ (geminiBranch env g js body).2, callHasImage c = false := by
  intro c hc
  by_cases hk : truthy env.GEMINI_API_KEY = true
  · rcases g with e | raw
    · simp [geminiBranch, ht, hk] at hc
      simp [hc, callHasImage]
    · cases hjs : js (cleanResponseText raw) with
      | none =>
        simp [geminiBranch, ht, hk, hjs] at hc
        simp [hc, callHasImage]
      | some j =>
        simp [geminiBranch, ht, hk, hjs] at hc
        simp [hc, callHasImage]
  · simp only [Bool.not_eq_true] at hk
    simp [geminiBranch, hk] at hc

/-- C2 (amended): branch selection gives the TEXT payload priority.  For any
request with a truthy text payload — in particular when both payloads are
present — the GAS-revision handler behaves exactly as if the image payload
were absent (response and call trace alike), and no outbound call carries the
image; so at most one of the two payloads is ever meaningfully used. -/
theorem c2_text_priority (w : WorldGAS) (req : Request)
    (ht : truthy req.body.text = true) :
    handlerGAS w req =
      handlerGAS w ⟨req.method, { req.body with image := none }⟩
    ∧ ∀ c ∈ (handlerGAS w req).2, callHasImage c = false := by
  constructor
  · simp [handlerGAS, geminiBranch, ht]
  · intro c hc
    by_cases hm : req.method = "OPTIONS".toList
    · simp [handlerGAS, hm] at hc
    · by_cases hp : req.method = "POST".toList
      · by_cases hgas : truthy w.env.GAS_API_URL = true
        · cases hok : translateWithGAS w.gasFetch with
          | ok tr =>
            simp [handlerGAS, hm, hp, ht, hgas, hok] at hc
            simp [hc, callHasImage]
          | error e =>
            simp [handlerGAS, hm, hp, ht, hgas, hok] at hc
            rcases hc with hc | hc
            · simp [hc, callHasImage]
            · exact geminiBranch_trace_no_image w.env w.gemini w.jsonParse
                req.body ht c hc
        · simp only [Bool.not_eq_true] at hgas
          simp [handlerGAS, hm, hp, ht, hgas] at hc
          exact geminiBranch_trace_no_image w.env w.gemini w.jsonParse
            req.body ht c hc
      · simp at hm hp
        simp [handlerGAS, hm, hp] at hc

/-- C2 witness: the amended statement at a concrete request carrying both an
image and a text payload. -/
theorem c2_text_priority_witness :
    handlerGAS
        ⟨⟨some "k".toList, some "u".toList, none, none⟩, 1,
          .payload "success".toList "你好".toList [], .ok [], fun _ => none⟩
        ⟨"POST".toList, ⟨some "AAA".toList, some "hi".toList, none, none⟩⟩ =
      handlerGAS
        ⟨⟨some "k".toList, some "u".toList, none, none⟩, 1,
          .payload "success".toList "你好".toList [], .ok [], fun _ => none⟩
        ⟨"POST".toList, ⟨none, some "hi".toList, none, none⟩⟩
    ∧ ∀ c ∈ (handlerGAS
        ⟨⟨some "k".toList, some "u".toList, none, none⟩, 1,
          .payload "success".toList "你好".toList [], .ok [], fun _ => none⟩
        ⟨"POST".toList, ⟨some "AAA".toList, some "hi".toList, none, none⟩⟩).2,
        callHasImage c = false := by
  exact c2_text_priority
    ⟨⟨some "k".toList, some "u".toList, none, none⟩, 1,
      .payload "success".toList "你好".toList [], .ok [], fun _ => none⟩
    ⟨"POST".toList, ⟨some "AAA".toList, some "hi".toList, none, none⟩⟩
    (by decide)

/-- C2 counterexample: a concrete POST request carrying both payloads.  The
run is identical to the run with the image payload deleted, the single
returned item is built from the text, and the only outbound call carries the
text — so the image payload, contrary to the claim, is not the one
meaningfully used. -/
theorem c2_text_priority_counterexample :
    handlerGAS
        ⟨⟨some "k".toList, some "u".toList, none, none⟩, 1,
          .payload "success".toList "你好".toList [], .ok [], fun _ => none⟩
        ⟨"POST".toList, ⟨some "AAA".toList, some "hi".toList, none, none⟩⟩ =
      handlerGAS
        ⟨⟨some "k".toList, some "u".toList, none, none⟩, 1,
          .payload "success".toList "你好".toList [], .ok [], fun _ => none⟩
        ⟨"POST".toList, ⟨none, some "hi".toList, none, none⟩⟩
    ∧ (handlerGAS
        ⟨⟨some "k".toList, some "u".toList, none, none⟩, 1,
          .payload "success".toList "你好".toList [], .ok [], fun _ => none⟩
        ⟨"POST".toList, ⟨some "AAA".toList, some "hi".toList, none, none⟩⟩).2 =
      [Call.gas "hi".toList "th".toList "zh-TW".toList]
    ∧ (handlerGAS
        ⟨⟨some "k".toList, some "u".toList, none, none⟩, 1,
          .payload "success".toList "你好".toList [], .ok [], fun _ => none⟩
        ⟨"POST".toList, ⟨some "AAA".toList, some "hi".toList, none, none⟩⟩).1.body =
      .items [Item.mk 1 "hi".toList "你好".toList []
        "來源: Google Translate (GAS)".toList false] := by
  exact ⟨rfl, rfl, rfl⟩

/-- C5: if the call to the primary model fails with a message containing
`429` or `503`, exactly one retry is made and it targets the fallback model:
the run's outcome is exactly the fallback call's outcome (so a failure of the
retry is raised with no further retry), and the models invoked are precisely
`[primary, fallback]`.  Any other error kind on the first call is raised
immediately, with the primary model as the only call. -/
theorem c5_generateWithRetry (gemini : JStr → Except JStr JStr)
    (fallbackModel primaryModel : JStr) (e : JStr)
    (hfail : gemini primaryModel = .error e) :
    ((includesStr e "429".toList || includesStr e "503".toList) = true →
      generateWithRetry gemini fallbackModel primaryModel false =
        (gemini fallbackModel, [primaryModel, fallbackModel]))
    ∧ ((includesStr e "429".toList || includesStr e "503".toList) = false →
      generateWithRetry gemini fallbackModel primaryModel false =
        (.error e, [primaryModel])) := by
  have h429 : ("429".toList : JStr) = ['4', '2', '9'] := rfl
  have h503 : ("503".toList : JStr) = ['5', '0', '3'] := rfl
  constructor
  · intro hcond
    have hcond2 := hcond
    rw [h429, h503] at hcond2
    rw [generateWithRetry, hfail, generateWithRetry]
    cases hfb : gemini fallbackModel with
    | ok t => simp [hcond, hcond2]
    | error e2 => simp [hcond, hcond2]
  · intro hcond
    have hcond2 := hcond
    rw [h429, h503] at hcond2
    rw [generateWithRetry, hfail]
    simp [hcond, hcond2]

/-- C5 witness: a concrete oracle where the primary model `A` fails with a
quota message containing `429` and the fallback model `B` succeeds, and a
second oracle where `A` fails with a message containing neither `429` nor
`503`. -/
theorem c5_generateWithRetry_witness :
    generateWithRetry
        (fun m => if m = "A".toList then .error "429 quota".toList
          else .ok "T".toList)
        "B".toList "A".toList false =
      (.ok "T".toList, ["A".toList, "B".toList])
    ∧ generateWithRetry
        (fun m => if m = "A".toList then .error "boom".toList
          else .ok "T".toList)
        "B".toList "A".toList false =
      (.error "boom".toList, ["A".toList]) := by
  constructor
  · exact (c5_generateWithRetry
      (fun m => if m = "A".toList then .error "429 quota".toList
        else .ok "T".toList)
      "B".toList "A".toList "429 quota".toList rfl).1 (by decide)
  · exact (c5_generateWithRetry
      (fun m => if m = "A".toList then .error "boom".toList
        else .ok "T".toList)
      "B".toList "A".toList "boom".toList rfl).2 (by decide)

/-- C4 (amended): when the GAS fast path succeeds on a POST text request, the
response is exactly one item, the category names the fast-path provider, the
Gemini provider is never invoked (the trace is the single GAS call), and the
thai/zh fields hold the input/translation in the Thai-to-Chinese direction
while the zh/thai fields hold them in the `sourceLang = 'zh'` direction. -/
theorem c4_fast_success (w : WorldGAS) (req : Request) (tr : JStr)
    (hm : req.method = "POST".toList)
    (ht : truthy req.body.text = true)
    (hg : truthy w.env.GAS_API_URL = true)
    (hok : translateWithGAS w.gasFetch = .ok tr) :
    ∃ item : Item,
      handlerGAS w req =
        (⟨200, .items [item]⟩,
          [Call.gas (req.body.text.getD [])
            (if req.body.sourceLang = some "zh".toList then "zh-TW".toList
             else "th".toList)
            (if req.body.sourceLang = some "zh".toList then "th".toList
             else "zh-TW".toList)])
      ∧ item.category = "來源: Google Translate (GAS)".toList
      ∧ (¬ req.body.sourceLang = some "zh".toList →
          item.thai = req.body.text.getD [] ∧ item.zh = tr)
      ∧ (req.body.sourceLang = some "zh".toList →
          item.zh = req.body.text.getD [] ∧ item.thai = tr) := by
  by_cases hsl : req.body.sourceLang = some "zh".toList
  · refine ⟨Item.mk w.now tr (req.body.text.getD []) []
      "來源: Google Translate (GAS)".toList false, ?_, rfl, ?_, ?_⟩
    · simp [handlerGAS, hm, post_ne_options, ht, hg, hok, hsl]
    · intro h; exact absurd hsl h
    · intro _; exact ⟨rfl, rfl⟩
  · refine ⟨Item.mk w.now (req.body.text.getD []) tr []
      "來源: Google Translate (GAS)".toList
      (shellfishKeywords.any fun k => includesStr (req.body.text.getD []) k),
      ?_, rfl, ?_, ?_⟩
    · have hsl2 := hsl
      simp only [show ("zh".toList : JStr) = ['z', 'h'] from rfl] at hsl2
      simp [handlerGAS, hm, post_ne_options, ht, hg, hok, hsl, hsl2]
    · intro _; exact ⟨rfl, rfl⟩
    · intro h; exact absurd h hsl

/-- C4 witness: the amended statement at a concrete Thai-to-Chinese request
whose GAS fetch succeeds. -/
theorem c4_fast_success_witness :
    ∃ item : Item,
      handlerGAS
          ⟨⟨some "k".toList, some "u".toList, none, none⟩, 9,
            .payload "success".toList "你好".toList [], .ok [], fun _ => none⟩
          ⟨"POST".toList, ⟨none, some "hi".toList, none, none⟩⟩ =
        (⟨200, .items [item]⟩, [Call.gas "hi".toList "th".toList "zh-TW".toList])
      ∧ item.category = "來源: Google Translate (GAS)".toList
      ∧ item.thai = "hi".toList ∧ item.zh = "你好".toList := by
  obtain ⟨item, h1, h2, h3, _⟩ := c4_fast_success
    ⟨⟨some "k".toList, some "u".toList, none, none⟩, 9,
      .payload "success".toList "你好".toList [], .ok [], fun _ => none⟩
    ⟨"POST".toList, ⟨none, some "hi".toList, none, none⟩⟩
    "你好".toList rfl (by decide) (by decide) rfl
  exact ⟨item, h1, h2, h3 (by decide)⟩

/-- C4 counterexample: a concrete Chinese-to-Thai fast-path success
(`sourceLang = 'zh'`): the single item's `thai` field holds the TRANSLATION
and its `zh` field the original input, so the claim that `thai` always holds
the original input text fails. -/
theorem c4_fast_success_counterexample :
    (handlerGAS
        ⟨⟨some "k".toList, some "u".toList, none, none⟩, 9,
          .payload "success".toList "สวัสดี".toList [], .ok [], fun _ => none⟩
        ⟨"POST".toList, ⟨none, some "你好".toList, none, some "zh".toList⟩⟩).1.body =
      .items [Item.mk 9 "สวัสดี".toList "你好".toList []
        "來源: Google Translate (GAS)".toList false]
    ∧ ¬ ("สวัสดี".toList = "你好".toList) := by
  exact ⟨rfl, by decide⟩

/-- C1 (amended): in the GAS revision, for fast-path text requests translated
from Thai (`sourceLang` is not `'zh'`) on which the fast path succeeds, the
single returned item has `containsShellfish = true` exactly when the input
text contains one of the fixed shellfish keywords, and `false` when it
contains none.  (In the NLLB fast-path revisions `containsShellfish` is
instead hard-coded to `false` — see the counterexample.) -/
theorem c1_shellfish_detection (w : WorldGAS) (req : Request) (tr : JStr)
    (hm : req.method = "POST".toList)
    (ht : truthy req.body.text = true)
    (hg : truthy w.env.GAS_API_URL = true)
    (hok : translateWithGAS w.gasFetch = .ok tr)
    (hsl : ¬ req.body.sourceLang = some "zh".toList) :
    ∃ item : Item,
      (handlerGAS w req).1 = ⟨200, .items [item]⟩
      ∧ (item.containsShellfish = true ↔
          ∃ k ∈ shellfishKeywords,
            includesStr (req.body.text.getD []) k = true) := by
  refine ⟨Item.mk w.now (req.body.text.getD []) tr []
    "來源: Google Translate (GAS)".toList
    (shellfishKeywords.any fun k => includesStr (req.body.text.getD []) k),
    ?_, ?_⟩
  · have hsl2 := hsl
    simp only [show ("zh".toList : JStr) = ['z', 'h'] from rfl] at hsl2
    simp [handlerGAS, hm, post_ne_options, ht, hg, hok, hsl, hsl2]
  · simp [List.any_eq_true]

/-- C1 witness: a concrete Thai input that is itself the keyword
`"กุ้ง"` (shrimp), with a successful GAS fast path; the
returned item flags shellfish. -/
theorem c1_shellfish_detection_witness :
    ∃ item : Item,
      (handlerGAS
          ⟨⟨some "k".toList, some "u".toList, none, none⟩, 3,
            .payload "success".toList "蝦".toList [], .ok [], fun _ => none⟩
          ⟨"POST".toList,
            ⟨none, some "กุ้ง".toList, none, none⟩⟩).1 =
        ⟨200, .items [item]⟩
      ∧ (item.containsShellfish = true ↔
          ∃ k ∈ shellfishKeywords,
            includesStr "กุ้ง".toList k = true) := by
  exact c1_shellfish_detection
    ⟨⟨some "k".toList, some "u".toList, none, none⟩, 3,
      .payload "success".toList "蝦".toList [], .ok [], fun _ => none⟩
    ⟨"POST".toList, ⟨none, some "กุ้ง".toList, none, none⟩⟩
    "蝦".toList rfl (by decide) (by decide) rfl (by decide)

/-- C1 counterexample: in the NLLB fast-path revision (part_000), the input
`"กุ้ง"` contains a fixed shellfish keyword (it IS one),
the fast path succeeds, yet the returned item has
`containsShellfish = false` — the claim fails on that revision. -/
theorem c1_shellfish_detection_counterexample :
    "กุ้ง".toList ∈ shellfishKeywords
    ∧ includesStr "กุ้ง".toList
        "กุ้ง".toList = true
    ∧ (handlerNLLB
        ⟨⟨none, none, none, some "h".toList⟩, 7, .okTranslation "蝦".toList,
          .ok [], fun _ => none⟩
        ⟨"POST".toList,
          ⟨none, some "กุ้ง".toList, none, none⟩⟩).1 =
      ⟨200, .items [Item.mk 7 "กุ้ง".toList "蝦".toList []
        "來源: Meta NLLB-200".toList false]⟩ := by
  exact ⟨by decide, by decide, rfl⟩

/-- C10: the fast-path item's `id` is the `Date.now()` clock, so two runs
with the same request and the same provider behaviour but different clocks
differ in the `id`; every other field of the fast-path item is determined by
the input text, the `sourceLang` hint, and the provider's translated string
alone (the two runs below may differ in clock, environment and fetch
outcome, provided the translation agrees). -/
theorem c10_id_is_clock (w w' : WorldGAS) (req req' : Request) (tr : JStr)
    (hm : req.method = "POST".toList) (hm' : req'.method = "POST".toList)
    (ht : truthy req.body.text = true) (ht' : truthy req'.body.text = true)
    (hg : truthy w.env.GAS_API_URL = true)
    (hg' : truthy w'.env.GAS_API_URL = true)
    (hok : translateWithGAS w.gasFetch = .ok tr)
    (hok' : translateWithGAS w'.gasFetch = .ok tr)
    (htext : req.body.text = req'.body.text)
    (hsl : req.body.sourceLang = req'.body.sourceLang) :
    ∃ item : Item,
      (handlerGAS w req).1 = ⟨200, .items [item]⟩
      ∧ item.id = w.now
      ∧ (handlerGAS w' req').1 =
          ⟨200, .items [{ item with id := w'.now }]⟩ := by
  by_cases hz : req.body.sourceLang = some "zh".toList
  · have hz' : req'.body.sourceLang = some "zh".toList := by
      rw [← hsl]; exact hz
    refine ⟨Item.mk w.now tr (req.body.text.getD []) []
      "來源: Google Translate (GAS)".toList false, ?_, rfl, ?_⟩
    · simp [handlerGAS, hm, post_ne_options, ht, hg, hok, hz]
    · simp [handlerGAS, hm', post_ne_options, ht, ht', hg', hok', hz', ← htext]
  · have hz' : ¬ req'.body.sourceLang = some "zh".toList := by
      rw [← hsl]; exact hz
    have hz2 := hz
    have hz2' := hz'
    simp only [show ("zh".toList : JStr) = ['z', 'h'] from rfl] at hz2 hz2'
    refine ⟨Item.mk w.now (req.body.text.getD []) tr []
      "來源: Google Translate (GAS)".toList
      (shellfishKeywords.any fun k => includesStr (req.body.text.getD []) k),
      ?_, rfl, ?_⟩
    · simp [handlerGAS, hm, post_ne_options, ht, hg, hok, hz, hz2]
    · simp [handlerGAS, hm', post_ne_options, ht, ht', hg', hok', hz', hz2',
        ← htext]

/-- C10 witness: two concrete runs identical except for the clock (3 versus
9): the items agree on every field except `id`, which equals each run's
clock, so the two response bodies differ. -/
theorem c10_id_is_clock_witness :
    ∃ item : Item,
      (handlerGAS
          ⟨⟨some "k".toList, some "u".toList, none, none⟩, 3,
            .payload "success".toList "你好".toList [], .ok [], fun _ => none⟩
          ⟨"POST".toList, ⟨none, some "hi".toList, none, none⟩⟩).1 =
        ⟨200, .items [item]⟩
      ∧ item.id = 3
      ∧ (handlerGAS
          ⟨⟨some "k".toList, some "u".toList, none, none⟩, 9,
            .payload "success".toList "你好".toList [], .ok [], fun _ => none⟩
          ⟨"POST".toList, ⟨none, some "hi".toList, none, none⟩⟩).1 =
        ⟨200, .items [{ item with id := 9 }]⟩ := by
  exact c10_id_is_clock
    ⟨⟨some "k".toList, some "u".toList, none, none⟩, 3,
      .payload "success".toList "你好".toList [], .ok [], fun _ => none⟩
    ⟨⟨some "k".toList, some "u".toList, none, none⟩, 9,
      .payload "success".toList "你好".toList [], .ok [], fun _ => none⟩
    ⟨"POST".toList, ⟨none, some "hi".toList, none, none⟩⟩
    ⟨"POST".toList, ⟨none, some "hi".toList, none, none⟩⟩
    "你好".toList rfl rfl (by decide) (by decide) (by decide) (by decide)
    rfl rfl rfl rfl

/-- C3 (amended): whenever the generative path runs (content present, fast
path not returning, credential configured), the provider call succeeds with
raw text, and the sanitized text fails to parse, the GAS-revision handler
returns HTTP 500 with error kind `AI Response Error`, details
`Failed to parse JSON`, and the offending sanitized text itself — in full,
not truncated — in the `raw` field; the parse failure is never swallowed.
(Only the README revision truncates `raw` to 200 characters plus an
ellipsis.) -/
theorem c3_parse_failure_surfaced (w : WorldGAS) (req : Request) (raw : JStr)
    (hm : req.method = "POST".toList)
    (hcontent : (truthy req.body.image || truthy req.body.text) = true)
    (hFast : ¬ (truthy req.body.text = true
      ∧ truthy w.env.GAS_API_URL = true
      ∧ ∃ t, translateWithGAS w.gasFetch = .ok t))
    (hkey : truthy w.env.GEMINI_API_KEY = true)
    (hraw : w.gemini = .ok raw)
    (hparse : w.jsonParse (cleanResponseText raw) = none) :
    (handlerGAS w req).1 =
      ⟨500, .errorBody "AI Response Error".toList
        (some "Failed to parse JSON".toList)
        (some (cleanResponseText raw))⟩ := by
  by_cases ht : truthy req.body.text = true
  · by_cases hg : truthy w.env.GAS_API_URL = true
    · cases hok : translateWithGAS w.gasFetch with
      | ok t => exact absurd ⟨ht, hg, t, hok⟩ hFast
      | error e =>
        simp [handlerGAS, hm, post_ne_options, ht, hg, hok, geminiBranch,
          hkey, hraw, hparse]
    · simp only [Bool.not_eq_true] at hg
      simp [handlerGAS, hm, post_ne_options, ht, hg, geminiBranch,
        hkey, hraw, hparse]
  · simp only [Bool.not_eq_true] at ht
    have hi : truthy req.body.image = true := by
      rcases Bool.or_eq_true_iff.mp hcontent with h | h
      · exact h
      · rw [ht] at h; exact absurd h (by simp)
    simp [handlerGAS, hm, post_ne_options, ht, hi, geminiBranch,
      hkey, hraw, hparse]

/-- C3 witness: a concrete image request whose Gemini call answers the
non-JSON text `junk`; the handler surfaces the parse failure as a 500
`AI Response Error` carrying the sanitized text. -/
theorem c3_parse_failure_surfaced_witness :
    (handlerGAS
        ⟨⟨some "k".toList, none, none, none⟩, 0, .httpError 500,
          .ok "junk".toList, fun _ => none⟩
        ⟨"POST".toList, ⟨some "IMG".toList, none, none, none⟩⟩).1 =
      ⟨500, .errorBody "AI Response Error".toList
        (some "Failed to parse JSON".toList)
        (some (cleanResponseText "junk".toList))⟩ := by
  exact c3_parse_failure_surfaced
    ⟨⟨some "k".toList, none, none, none⟩, 0, .httpError 500,
      .ok "junk".toList, fun _ => none⟩
    ⟨"POST".toList, ⟨some "IMG".toList, none, none, none⟩⟩
    "junk".toList rfl (by decide) (by intro h; simp at h) (by decide)
    rfl rfl

set_option maxRecDepth 4000 in
/-- C3 counterexample: with a 250-character non-JSON provider text, the
`raw` field of the analyze.js revision's 500 response is the full sanitized
text — not the truncated excerpt (`substring(0, 200) + "..."`, as the README
revision sends) that the claim describes. -/
theorem c3_parse_failure_surfaced_counterexample :
    (handlerGAS
        ⟨⟨some "k".toList, none, none, none⟩, 0, .httpError 500,
          .ok (List.replicate 250 'a'), fun _ => none⟩
        ⟨"POST".toList, ⟨some "IMG".toList, none, none, none⟩⟩).1 =
      ⟨500, .errorBody "AI Response Error".toList
        (some "Failed to parse JSON".toList)
        (some (List.replicate 250 'a'))⟩
    ∧ ¬ (List.replicate 250 'a' =
          truncatedExcerpt (List.replicate 250 'a')) := by
  exact ⟨rfl, by decide⟩

/-- C7 (amended): sanitization strips the fence markers and then slices with
JavaScript `substring` semantics: when the first `\x7b` (at index `a`)
precedes the last `\x7d` (at index `b`), the result is the span from the
first `\x7b` to the last `\x7d` inclusive, exactly as the claim states; but
when the last `\x7d` precedes the first `\x7b`, `substring` swaps its
arguments and the result is the text strictly between the two braces, not
the claimed (empty) forward span; when either brace is absent the text is
left unsliced. -/
theorem c7_sanitization (s : JStr) :
    (∀ a b, indexOfChar (stripFences s) '\x7b' = some a →
        lastIndexOfChar (stripFences s) '\x7d' = some b →
        (a ≤ b →
          cleanResponseText s = ((stripFences s).drop a).take (b + 1 - a))
        ∧ (b < a →
          cleanResponseText s =
            ((stripFences s).drop (b + 1)).take (a - (b + 1))))
    ∧ ((indexOfChar (stripFences s) '\x7b' = none
        ∨ lastIndexOfChar (stripFences s) '\x7d' = none) →
        cleanResponseText s = stripFences s) := by
  constructor
  · intro a b ha hb
    have ha' := indexOfChar_lt_length ha
    have hb' := lastIndexOfChar_lt_length hb
    constructor
    · intro hab
      simp only [cleanResponseText, ha, hb, jsSubstring]
      have h1 : min (min a (stripFences s).length)
          (min (b + 1) (stripFences s).length) = a := by omega
      have h2 : max (min a (stripFences s).length)
          (min (b + 1) (stripFences s).length) = b + 1 := by omega
      rw [h1, h2]
    · intro hba
      simp only [cleanResponseText, ha, hb, jsSubstring]
      have h1 : min (min a (stripFences s).length)
          (min (b + 1) (stripFences s).length) = b + 1 := by omega
      have h2 : max (min a (stripFences s).length)
          (min (b + 1) (stripFences s).length) = a := by omega
      rw [h1, h2]
  · intro h
    rcases h with h | h
    · simp [cleanResponseText, h]
    · cases hfa : indexOfChar (stripFences s) '\x7b' with
      | none => simp [cleanResponseText, hfa]
      | some a => simp [cleanResponseText, hfa, h]

/-- C7 witness: on `x\x7b1\x7dy` the braces are in order and sanitization
keeps exactly the inclusive span `\x7b1\x7d`; on `abc` (no braces) the text
is left unsliced. -/
theorem c7_sanitization_witness :
    cleanResponseText "x\x7b1\x7dy".toList = "\x7b1\x7d".toList
    ∧ cleanResponseText "abc".toList = "abc".toList := by
  constructor
  · have h := ((c7_sanitization "x\x7b1\x7dy".toList).1 1 3
      (by decide) (by decide)).1 (by decide)
    rw [h]; decide
  · have h := (c7_sanitization "abc".toList).2 (Or.inl (by decide))
    rw [h]; decide

/-- C7 counterexample: on `\x7da\x7b` (last `\x7d` before first `\x7b`) the
code yields `a` — the text between the braces, by JavaScript substring
argument swapping — whereas the claim's from-first-brace-to-last-brace slice
is empty. -/
theorem c7_sanitization_counterexample :
    cleanResponseText "\x7da\x7b".toList = "a".toList
    ∧ sliceSpecFromClaim "\x7da\x7b".toList = []
    ∧ ¬ (cleanResponseText "\x7da\x7b".toList =
          sliceSpecFromClaim "\x7da\x7b".toList) := by
  exact ⟨by decide, by decide, by decide⟩

/-- The NLLB retry loop performs at most `fuel` fetches. -/
theorem nllbLoop_attempts_le (hf : Nat → HfOutcome) :
    ∀ fuel i, (nllbLoop hf i fuel).attempts ≤ fuel := by
  intro fuel
  induction fuel with
  | zero => intro i; simp [nllbLoop]
  | succ n ih =>
    intro i
    cases hfi : hf i with
    | networkError m => simp [nllbLoop, hfi]
    | loading et =>
      have := ih (i + 1)
      simp only [nllbLoop, hfi]
      omega
    | httpError st errText => simp [nllbLoop, hfi]
    | okPayload t => cases t <;> simp [nllbLoop, hfi]

/-- A present value is truthy exactly when non-empty. -/
theorem truthy_some (s : JStr) : truthy (some s) = !s.isEmpty := rfl

/-- C9: the part_002 NLLB helper (1) makes at most 3 fetch attempts; (2)
always terminates with either a translated string or an error; (3) when all
three attempts answer 503 "model loading", it waits
`(estimated_time || 5) * 1000` milliseconds after each of the three attempts
and then throws `NLLB Model unavailable after retries`; and (4) such a hard
failure triggers the outer fallback: the part_002 handler's response on any
NLLB error is exactly the Gemini branch's response. -/
theorem c9_nllb_retry_budget (hf : Nat → HfOutcome) (et0 et1 et2 : Option Nat) :
    (translateWithNLLB hf).attempts ≤ 3
    ∧ ((∃ t, (translateWithNLLB hf).result = .ok t)
        ∨ (∃ e, (translateWithNLLB hf).result = .error e))
    ∧ (hf 0 = .loading et0 → hf 1 = .loading et1 → hf 2 = .loading et2 →
        translateWithNLLB hf =
          ⟨.error "NLLB Model unavailable after retries".toList, 3,
            [(match et0 with | some n => if n = 0 then 5 else n | none => 5) * 1000,
             (match et1 with | some n => if n = 0 then 5 else n | none => 5) * 1000,
             (match et2 with | some n => if n = 0 then 5 else n | none => 5) * 1000]⟩)
    ∧ (∀ (w : WorldNLLB2) (req : Request) (e : JStr),
        req.method = "POST".toList →
        truthy req.body.text = true →
        truthy w.env.HF_API_KEY = true →
        (trimStr (w.env.HF_API_KEY.getD [])).isEmpty = false →
        w.hf = hf →
        (translateWithNLLB hf).result = .error e →
        (handlerNLLB2 w req).1 =
          (geminiBranch w.env w.gemini w.jsonParse req.body).1) := by
  refine ⟨nllbLoop_attempts_le hf 3 0, ?_, ?_, ?_⟩
  · cases h : (translateWithNLLB hf).result with
    | ok t => exact Or.inl ⟨t, rfl⟩
    | error e => exact Or.inr ⟨e, rfl⟩
  · intro h0 h1 h2
    simp [translateWithNLLB, nllbLoop, h0, h1, h2]
  · intro w req e hm ht hk hk2 hhf hres
    simp [handlerNLLB2, hm, post_ne_options, ht, hk, hk2, truthy_some,
      hhf, hres]

/-- C9 witness: a concrete oracle answering 503 "model loading" with
`estimated_time = 2` on every attempt: three fetches, three 2000 ms waits,
the budget-exhausted error, and the part_002 handler falling back to the
Gemini branch. -/
theorem c9_nllb_retry_budget_witness :
    (translateWithNLLB (fun _ => HfOutcome.loading (some 2))).attempts ≤ 3
    ∧ translateWithNLLB (fun _ => HfOutcome.loading (some 2)) =
        ⟨.error "NLLB Model unavailable after retries".toList, 3,
          [2000, 2000, 2000]⟩
    ∧ (handlerNLLB2
        ⟨⟨some "g".toList, none, none, some "h".toList⟩, 0,
          (fun _ => HfOutcome.loading (some 2)), .ok [], fun _ => none⟩
        ⟨"POST".toList, ⟨none, some "hi".toList, none, none⟩⟩).1 =
      (geminiBranch ⟨some "g".toList, none, none, some "h".toList⟩
        (.ok []) (fun _ => none) ⟨none, some "hi".toList, none, none⟩).1 := by
  have h := c9_nllb_retry_budget (fun _ => HfOutcome.loading (some 2))
    (some 2) (some 2) (some 2)
  refine ⟨h.1, ?_, ?_⟩
  · exact h.2.2.1 rfl rfl rfl
  · exact h.2.2.2
      ⟨⟨some "g".toList, none, none, some "h".toList⟩, 0,
        (fun _ => HfOutcome.loading (some 2)), .ok [], fun _ => none⟩
      ⟨"POST".toList, ⟨none, some "hi".toList, none, none⟩⟩
      "NLLB Model unavailable after retries".toList
      rfl (by decide) (by decide) (by decide) rfl rfl
